import Mathlib

/-!
Shallow embedding of the passport-soundcloud-token strategy: the class-based
implementation (src/index.js) and the legacy prototype-based implementation,
followed by theorems checking the specification's claims against them.

Conventions of the embedding: possibly-`undefined` JavaScript string values
are `Option String` (`none` models `undefined`); the platform `JSON.parse` is
modelled by tagging each piece of text with its parse outcome (a parsed
document plus the raw text, or malformed raw text); the asynchronous callback
style of the source is replaced by functions returning result values.
-/

namespace SoundCloudToken

/-- JavaScript truthiness restricted to string-valued request fields:
`undefined` (`none`) and the empty string are falsy. -/
def jsTruthy : Option String → Bool
  | none => false
  | some s => !(s == "")

/-- JavaScript `x || y` on string-valued expressions: the value of `x` when
truthy, otherwise the value of `y`. -/
def jsOr (x y : Option String) : Option String :=
  if jsTruthy x then x else y

/-- JavaScript `x || ''`: coalesce a possibly-undefined string to a string. -/
def jsStrOrEmpty : Option String → String
  | none => ""
  | some s => s

/-- Truthy content of a string-valued JS expression: `some s` when truthy,
`none` when falsy (undefined or empty). -/
def truthyStr (x : Option String) : Option String :=
  if jsTruthy x then x else none

/-- First non-empty string among a list of possibly-absent strings. -/
def firstNonEmptyStr : List (Option String) → Option String
  | [] => none
  | x :: xs => if jsTruthy x then x else firstNonEmptyStr xs

/-- An incoming HTTP request as consulted by `authenticate`: each section
(`req.body`, `req.query`, `req.headers`) is a possibly-absent object mapping
field names to string values. -/
structure Request where
  body : Option (List (String × String))
  query : Option (List (String × String))
  headers : Option (List (String × String))

/-- JS `section && section[field]`: `undefined` when the section object is
absent or the field is missing from it. -/
def sectionGet : Option (List (String × String)) → String → Option String
  | none, _ => none
  | some kvs, field => kvs.lookup field

/-- Token extraction of the class implementation (src/index.js line 53):
`(req.body && req.body[f]) || (req.query && req.query[f])`. -/
def classExtract (field : String) (req : Request) : Option String :=
  jsOr (sectionGet req.body field) (sectionGet req.query field)

/-- Token extraction of the legacy implementation (part_001 line 57): body,
then query, then headers, with the left-associated `||` chain of the source. -/
def legacyExtract (field : String) (req : Request) : Option String :=
  jsOr (jsOr (sectionGet req.body field) (sectionGet req.query field))
    (sectionGet req.headers field)

/-- The provider profile JSON fields read by `userProfile`; fields absent from
the document are `none`. -/
structure ProviderJson where
  id : Option String
  username : Option String
  full_name : Option String
  avatar_url : Option String
deriving DecidableEq

/-- JS `String.prototype.split` with the single-space separator `' '`, on
character lists: splits at every space character, keeping empty segments. -/
def jsSplitSpace : List Char → List (List Char)
  | [] => [[]]
  | c :: rest =>
    if c = ' ' then [] :: jsSplitSpace rest
    else
      match jsSplitSpace rest with
      | [] => [[c]]
      | h :: t => (c :: h) :: t

/-- JS `s.split(' ', 2)`: split on the space character and keep the first two
segments. -/
def jsSplitSpaceLimit2 (s : String) : List String :=
  ((jsSplitSpace s.toList).map List.asString).take 2

/-- The `name` object of a canonical profile; either part is `none` when the
corresponding JS array index was `undefined`. -/
structure NameParts where
  familyName : Option String
  givenName : Option String
deriving DecidableEq

/-- One entry of the `photos` array of a canonical profile. -/
structure Photo where
  value : String
deriving DecidableEq

/-- Canonical profile produced by `userProfile` (src/index.js lines 94-109). -/
structure Profile where
  provider : String
  id : Option String
  username : Option String
  displayName : String
  name : NameParts
  emails : List String
  photos : List Photo
  _raw : String
  _json : ProviderJson
deriving DecidableEq

/-- Profile normalization of the class implementation (src/index.js lines
94-109), from the raw body text and the parsed provider JSON. -/
def classMkProfile (body : String) (json : ProviderJson) : Profile :=
  { provider := "soundcloud"
    id := json.id
    username := json.username
    displayName := jsStrOrEmpty json.full_name
    name :=
      { familyName :=
          if jsTruthy json.full_name then
            (jsSplitSpaceLimit2 (jsStrOrEmpty json.full_name)).get? 1
          else some ""
        givenName :=
          if jsTruthy json.full_name then
            (jsSplitSpaceLimit2 (jsStrOrEmpty json.full_name)).get? 0
          else some "" }
    emails := []
    photos := [{ value := jsStrOrEmpty json.avatar_url }]
    _raw := body
    _json := json }

/-- Profile normalization of the legacy implementation (part_001 lines
93-108), transcribed separately from that file. -/
def legacyMkProfile (body : String) (json : ProviderJson) : Profile :=
  { provider := "soundcloud"
    id := json.id
    username := json.username
    displayName := jsStrOrEmpty json.full_name
    name :=
      { familyName :=
          if jsTruthy json.full_name then
            (jsSplitSpaceLimit2 (jsStrOrEmpty json.full_name)).get? 1
          else some ""
        givenName :=
          if jsTruthy json.full_name then
            (jsSplitSpaceLimit2 (jsStrOrEmpty json.full_name)).get? 0
          else some "" }
    emails := []
    photos := [{ value := jsStrOrEmpty json.avatar_url }]
    _raw := body
    _json := json }

/-- One entry of the `errors` array of a provider error document; its
`error_message` field may be absent. -/
structure ErrEntry where
  error_message : Option String
deriving DecidableEq

/-- Parsed provider error document shape consulted by the class error branch:
`errorJSON.errors` may be absent. -/
structure ErrJson where
  errors : Option (List ErrEntry)
deriving DecidableEq

/-- The text attached to a transport error (`error.data`), modelled by its
`JSON.parse` outcome: either a parsed error document or malformed text. -/
inductive ErrData where
  | json (j : ErrJson)
  | malformed (raw : String)
deriving DecidableEq

/-- Transport error object handed back by `this._oauth2.get`: `error.data`
may be absent (in which case `JSON.parse` of it throws), and so may
`error.statusCode`. -/
structure TransportError where
  data : Option ErrData
  statusCode : Option Nat
deriving DecidableEq

/-- A transport response body, modelled by its `JSON.parse` outcome together
with the original raw text. -/
inductive Body where
  | json (j : ProviderJson) (raw : String)
  | malformed (raw : String)
deriving DecidableEq

/-- A JavaScript exception raised by `JSON.parse` on the given raw text. -/
inductive JsError where
  | parseError (raw : String)
deriving DecidableEq

/-- Error value handed to `done` by `userProfile`: either a raw unwrapped
`JSON.parse` exception, or an `InternalOAuthError` built from a parsed
provider message and status code, or the uniform `InternalOAuthError` wrap of
the original transport error. -/
inductive DoneError where
  | parse (e : JsError)
  | internalOAuthMsgStatus (message : Option String) (statusCode : Option Nat)
  | internalOAuthWrap (message : String) (cause : TransportError)
deriving DecidableEq

/-- Result of a `userProfile` call: `done(error)` or `done(null, profile)`. -/
inductive DoneResult where
  | failure (e : DoneError)
  | success (p : Profile)
deriving DecidableEq

/-- The profile carried by a `userProfile` result, when any. -/
def DoneResult.profile? : DoneResult → Option Profile
  | .failure _ => none
  | .success p => some p

/-- Transport-error branch of the class implementation (src/index.js lines
83-90): parse `error.data`, read `errorJSON.errors[0].error_message` and the
status code; any exception inside that try block (data absent or malformed,
`errors` absent, or `errors[0]` undefined) falls to the catch with the
uniform wrap. -/
def classOAuthErrorToDone (e : TransportError) : DoneError :=
  match e.data with
  | some (ErrData.json j) =>
    match j.errors with
    | some (entry :: _) => .internalOAuthMsgStatus entry.error_message e.statusCode
    | _ => .internalOAuthWrap "Failed to fetch user profile" e
  | _ => .internalOAuthWrap "Failed to fetch user profile" e

/-- `userProfile` of the class implementation (src/index.js lines 81-116),
with the OAuth2 transport `get` passed as a function of (url, accessToken). -/
def classUserProfile (get : String → String → Except TransportError Body)
    (profileURL accessToken : String) : DoneResult :=
  match get profileURL accessToken with
  | .error e => .failure (classOAuthErrorToDone e)
  | .ok body =>
    match body with
    | .json j raw => .success (classMkProfile raw j)
    | .malformed raw => .failure (.parse (.parseError raw))

/-- `userProfile` of the legacy implementation (part_001 lines 87-115): every
transport error is wrapped uniformly. -/
def legacyUserProfile (get : String → String → Except TransportError Body)
    (profileURL accessToken : String) : DoneResult :=
  match get profileURL accessToken with
  | .error e => .failure (.internalOAuthWrap "Failed to fetch user profile" e)
  | .ok body =>
    match body with
    | .json j raw => .success (legacyMkProfile raw j)
    | .malformed raw => .failure (.parse (.parseError raw))

/-- Structured reason accompanying a fail outcome: the literal object
`\x7bmessage: ...\x7d` of the missing-token branch, or the `info` value the
verify callback passed to its completion. -/
inductive FailReason (I : Type) where
  | messageObj (message : String)
  | info (i : I)

/-- The three terminal authentication outcomes a strategy can signal. -/
inductive Outcome (E U I : Type) where
  | error (e : E)
  | fail (reason : FailReason I)
  | success (user : U) (info : I)

/-- Arguments `(error, user, info)` the verify callback passes to its
completion; a falsy `user` is `none`. -/
structure VerifyResult (E U I : Type) where
  error : Option E
  user : Option U
  info : I

/-- The `verified` completion installed by `authenticate` (src/index.js lines
61-66 and part_001 lines 67-72, which are identical). -/
def verified {E U I : Type} (r : VerifyResult E U I) : Outcome E U I :=
  match r.error with
  | some e => Outcome.error e
  | none =>
    match r.user with
    | none => Outcome.fail (.info r.info)
    | some u => Outcome.success u r.info

/-- Shape of a verify-callback invocation: with the request prepended, or
without it. -/
inductive VerifyCall (P : Type) where
  | withReq (req : Request) (accessToken refreshToken : Option String) (profile : P)
  | withoutReq (accessToken refreshToken : Option String) (profile : P)

/-- `authenticate` of the class implementation (src/index.js lines 52-74);
`_loadUserProfile` and the verify callback are passed as functions. -/
def classAuthenticate {E U I P : Type}
    (accessTokenField refreshTokenField : String) (passReqToCallback : Bool)
    (loadUserProfile : String → Except E P)
    (verify : VerifyCall P → VerifyResult E U I)
    (req : Request) : Outcome E U I :=
  let accessToken := classExtract accessTokenField req
  let refreshToken := classExtract refreshTokenField req
  if jsTruthy accessToken then
    match loadUserProfile (accessToken.getD "") with
    | .error e => .error e
    | .ok profile =>
      if passReqToCallback then
        verified (verify (.withReq req accessToken refreshToken profile))
      else
        verified (verify (.withoutReq accessToken refreshToken profile))
  else
    .fail (.messageObj ("You should provide " ++ accessTokenField))

/-- `authenticate` of the legacy implementation (part_001 lines 55-80): fixed
field names `access_token` and `refresh_token`, headers consulted last, fixed
failure message. -/
def legacyAuthenticate {E U I P : Type} (passReqToCallback : Bool)
    (loadUserProfile : String → Except E P)
    (verify : VerifyCall P → VerifyResult E U I)
    (req : Request) : Outcome E U I :=
  let accessToken := legacyExtract "access_token" req
  let refreshToken := legacyExtract "refresh_token" req
  if jsTruthy accessToken then
    match loadUserProfile (accessToken.getD "") with
    | .error e => .error e
    | .ok profile =>
      if passReqToCallback then
        verified (verify (.withReq req accessToken refreshToken profile))
      else
        verified (verify (.withoutReq accessToken refreshToken profile))
  else
    .fail (.messageObj "You should provide access_token")

/-- The base strategy's `_loadUserProfile` delegating to `userProfile` (the
collaborator's default behaviour with profile loading enabled): `done(error)`
becomes a load error, `done(null, profile)` a loaded profile. -/
def loadViaClassUserProfile (get : String → String → Except TransportError Body)
    (profileURL : String) : String → Except DoneError Profile :=
  fun accessToken =>
    match classUserProfile get profileURL accessToken with
    | .failure e => .error e
    | .success p => .ok p

/-! Helper lemmas about the space-splitting function. -/

theorem jsSplitSpace_ne_nil (cs : List Char) : jsSplitSpace cs ≠ [] := by
  induction cs with
  | nil => simp [jsSplitSpace]
  | cons c rest ih =>
    simp only [jsSplitSpace]
    split
    · simp
    · cases h : jsSplitSpace rest with
      | nil => simp
      | cons h t => simp

theorem jsSplitSpace_headD (cs : List Char) :
    (jsSplitSpace cs).headD [] = cs.takeWhile (fun c => c != ' ') := by
  induction cs with
  | nil => rfl
  | cons c rest ih =>
    by_cases hc : c = ' '
    · simp [jsSplitSpace, hc]
    · have hb : (c != ' ') = true := by simpa using hc
      cases h : jsSplitSpace rest with
      | nil => exact absurd h (jsSplitSpace_ne_nil rest)
      | cons hd tl =>
        have ih' : hd = List.takeWhile (fun c => c != ' ') rest := by
          simpa [h] using ih
        simp [jsSplitSpace, hc, h, hb, ih']

theorem jsSplitSpace_get?_zero (cs : List Char) :
    (jsSplitSpace cs).get? 0 = some (cs.takeWhile (fun c => c != ' ')) := by
  have hne := jsSplitSpace_ne_nil cs
  have hh := jsSplitSpace_headD cs
  cases h : jsSplitSpace cs with
  | nil => exact absurd h hne
  | cons hd tl =>
    rw [h] at hh
    simp at hh
    simp [hh]

theorem jsSplitSpace_get?_one (cs : List Char) :
    (jsSplitSpace cs).get? 1
      = if ' ' ∈ cs then
          some (((cs.dropWhile (fun c => c != ' ')).drop 1).takeWhile (fun c => c != ' '))
        else none := by
  induction cs with
  | nil => rfl
  | cons c rest ih =>
    by_cases hc : c = ' '
    · subst hc
      have h1 : jsSplitSpace (' ' :: rest) = [] :: jsSplitSpace rest := by
        simp [jsSplitSpace]
      have h2 : List.dropWhile (fun x => x != ' ') (' ' :: rest) = ' ' :: rest := by
        simp [List.dropWhile]
      rw [h1, h2, if_pos (List.mem_cons_self ' ' rest)]
      have h3 : ([] :: jsSplitSpace rest).get? 1 = (jsSplitSpace rest).get? 0 := rfl
      rw [h3, jsSplitSpace_get?_zero rest]
      rfl
    · have hb : (c != ' ') = true := by simpa using hc
      cases h : jsSplitSpace rest with
      | nil => exact absurd h (jsSplitSpace_ne_nil rest)
      | cons hd tl =>
        have h1 : jsSplitSpace (c :: rest) = (c :: hd) :: tl := by
          simp [jsSplitSpace, hc, h]
        have h2 : List.dropWhile (fun x => x != ' ') (c :: rest)
            = List.dropWhile (fun x => x != ' ') rest := by
          simp [List.dropWhile, hb]
        have h3 : (' ' ∈ c :: rest) ↔ (' ' ∈ rest) := by
          constructor
          · intro hm
            rcases List.mem_cons.mp hm with heq | hm'
            · exact absurd heq.symm hc
            · exact hm'
          · exact fun hm => List.mem_cons_of_mem _ hm
        have h4 : ((c :: hd) :: tl).get? 1 = (hd :: tl).get? 1 := rfl
        rw [h1, h4, ← h, ih, h2]
        by_cases hm : ' ' ∈ rest
        · rw [if_pos hm, if_pos (h3.mpr hm)]
        · rw [if_neg hm, if_neg (fun hmm => hm (h3.mp hmm))]

theorem take_two_get?_zero {α : Type} (l : List α) : (l.take 2).get? 0 = l.get? 0 := by
  cases l <;> rfl

theorem take_two_get?_one {α : Type} (l : List α) : (l.take 2).get? 1 = l.get? 1 := by
  cases l with
  | nil => rfl
  | cons a t => cases t <;> rfl

theorem map_get?' {α β : Type} (f : α → β) (l : List α) (n : Nat) :
    (l.map f).get? n = (l.get? n).map f := by
  induction l generalizing n with
  | nil => cases n <;> rfl
  | cons a t ih => cases n with
    | zero => rfl
    | succ m => exact ih m

theorem jsSplitSpaceLimit2_get?_zero (s : String) :
    (jsSplitSpaceLimit2 s).get? 0 = some ((s.toList.takeWhile (fun c => c != ' ')).asString) := by
  rw [jsSplitSpaceLimit2, take_two_get?_zero, map_get?', jsSplitSpace_get?_zero]
  rfl

theorem jsSplitSpaceLimit2_get?_one (s : String) :
    (jsSplitSpaceLimit2 s).get? 1
      = if ' ' ∈ s.toList then
          some ((((s.toList.dropWhile (fun c => c != ' ')).drop 1).takeWhile
            (fun c => c != ' ')).asString)
        else none := by
  rw [jsSplitSpaceLimit2, take_two_get?_one, map_get?', jsSplitSpace_get?_one]
  split <;> rfl

theorem jsSplitSpaceLimit2_getElem?_zero (s : String) :
    (jsSplitSpaceLimit2 s)[0]? = some ((s.data.takeWhile (fun c => c != ' ')).asString) := by
  rw [← List.get?_eq_getElem?]
  exact jsSplitSpaceLimit2_get?_zero s

theorem jsSplitSpaceLimit2_getElem?_one (s : String) :
    (jsSplitSpaceLimit2 s)[1]?
      = if ' ' ∈ s.data then
          some ((((s.data.dropWhile (fun c => c != ' ')).tail).takeWhile
            (fun c => c != ' ')).asString)
        else none := by
  rw [← List.get?_eq_getElem?, jsSplitSpaceLimit2_get?_one]
  rw [show s.toList = s.data from rfl]
  simp [List.drop_one]

/-! Claim theorems. -/

/-- C1: the `verified` completion installed by `authenticate` maps its
arguments `(error, user, info)` to outcomes as specified: a present error
propagates unchanged as the error outcome; an absent error with a falsy user
fails with `info` as the reason; otherwise it succeeds with `(user, info)`. -/
theorem verified_completion_outcomes {E U I : Type} (r : VerifyResult E U I) :
    (∀ e, r.error = some e → verified r = Outcome.error e)
    ∧ (r.error = none → r.user = none → verified r = Outcome.fail (FailReason.info r.info))
    ∧ (∀ u, r.error = none → r.user = some u → verified r = Outcome.success u r.info) := by
  refine ⟨?_, ?_, ?_⟩
  · intro e he
    simp [verified, he]
  · intro he hu
    simp [verified, he, hu]
  · intro u he hu
    simp [verified, he, hu]

theorem verified_completion_outcomes_witness :
    verified ({ error := some 3, user := none, info := 7 } : VerifyResult Nat Nat Nat)
      = Outcome.error 3
    ∧ verified ({ error := none, user := none, info := 7 } : VerifyResult Nat Nat Nat)
      = Outcome.fail (FailReason.info 7)
    ∧ verified ({ error := none, user := some 5, info := 7 } : VerifyResult Nat Nat Nat)
      = Outcome.success 5 7 :=
  ⟨(verified_completion_outcomes { error := some 3, user := none, info := 7 }).1 3 rfl,
   (verified_completion_outcomes { error := none, user := none, info := 7 }).2.1 rfl rfl,
   (verified_completion_outcomes { error := none, user := some 5, info := 7 }).2.2 5 rfl rfl⟩

/-- C2: when the access-token field is falsy in every consulted section, the
class implementation fails with the structured message built from the
configured field name, the legacy implementation with the fixed message, and
neither consults the profile loader or the verify callback (the outcome is
the same for every loader and every callback). -/
theorem authenticate_missing_token_fails {E U I P : Type}
    (accessTokenField refreshTokenField : String) (passReqToCallback : Bool)
    (loadUserProfile : String → Except E P)
    (verify : VerifyCall P → VerifyResult E U I) (req : Request)
    (hb : jsTruthy (sectionGet req.body accessTokenField) = false)
    (hq : jsTruthy (sectionGet req.query accessTokenField) = false) :
    classAuthenticate accessTokenField refreshTokenField passReqToCallback
        loadUserProfile verify req
      = Outcome.fail (FailReason.messageObj ("You should provide " ++ accessTokenField))
    ∧ (jsTruthy (sectionGet req.body "access_token") = false →
        jsTruthy (sectionGet req.query "access_token") = false →
        jsTruthy (sectionGet req.headers "access_token") = false →
        legacyAuthenticate passReqToCallback loadUserProfile verify req
          = Outcome.fail (FailReason.messageObj "You should provide access_token")) := by
  constructor
  · simp [classAuthenticate, classExtract, jsOr, hb, hq]
  · intro hb' hq' hh'
    simp [legacyAuthenticate, legacyExtract, jsOr, hb', hq', hh']

theorem authenticate_missing_token_fails_witness :
    classAuthenticate "access_token" "refresh_token" false
        (fun _ => (Except.error 0 : Except Nat Nat))
        (fun _ => ({ error := none, user := none, info := 0 } : VerifyResult Nat Nat Nat))
        { body := none, query := none, headers := none }
      = Outcome.fail (FailReason.messageObj "You should provide access_token")
    ∧ legacyAuthenticate false
        (fun _ => (Except.error 0 : Except Nat Nat))
        (fun _ => ({ error := none, user := none, info := 0 } : VerifyResult Nat Nat Nat))
        { body := none, query := none, headers := none }
      = Outcome.fail (FailReason.messageObj "You should provide access_token") := by
  have h := authenticate_missing_token_fails "access_token" "refresh_token" false
    (fun _ => (Except.error 0 : Except Nat Nat))
    (fun _ => ({ error := none, user := none, info := 0 } : VerifyResult Nat Nat Nat))
    { body := none, query := none, headers := none } rfl rfl
  exact ⟨h.1, h.2 rfl rfl rfl⟩

/-- C4: on the documented provider JSON the class `userProfile` produces the
canonical profile of the specification: the constant provider, the id, the
full name as displayName, the two name parts, no emails, and a single photo
holding the avatar URL. -/
theorem fixture_profile_normalization :
    ∃ p : Profile,
      classUserProfile
          (fun _ _ => Except.ok (Body.json
            { id := some "3207", username := none,
              full_name := some "Johannes Wagener",
              avatar_url := some "http://example/img.jpg" }
            "\x7b\"id\": \"3207\", \"full_name\": \"Johannes Wagener\", \"avatar_url\": \"http://example/img.jpg\"\x7d"))
          "https://api.soundcloud.com/me.json" "accessToken"
        = DoneResult.success p
      ∧ p.provider = "soundcloud"
      ∧ p.id = some "3207"
      ∧ p.displayName = "Johannes Wagener"
      ∧ p.name.givenName = some "Johannes"
      ∧ p.name.familyName = some "Wagener"
      ∧ p.emails = []
      ∧ p.photos = [{ value := "http://example/img.jpg" }] :=
  ⟨_, rfl, by decide⟩

/-- C9: `userProfile` is a deterministic function of the access token and the
transport: two calls with the same token and the same deterministic transport
return structurally equal results, in both implementations, and on a body
that parses both calls return the very same canonical profile value. -/
theorem userProfile_deterministic
    (get : String → String → Except TransportError Body)
    (profileURL accessToken : String) :
    classUserProfile get profileURL accessToken = classUserProfile get profileURL accessToken
    ∧ legacyUserProfile get profileURL accessToken = legacyUserProfile get profileURL accessToken
    ∧ (∀ j raw, get profileURL accessToken = Except.ok (Body.json j raw) →
        classUserProfile get profileURL accessToken
          = DoneResult.success (classMkProfile raw j)) := by
  refine ⟨rfl, rfl, ?_⟩
  intro j raw h
  simp [classUserProfile, h]

theorem userProfile_deterministic_witness :
    classUserProfile
        (fun _ _ => Except.ok (Body.json
          { id := none, username := none, full_name := none, avatar_url := none } "r"))
        "https://api.soundcloud.com/me.json" "accessToken"
      = DoneResult.success (classMkProfile "r"
          { id := none, username := none, full_name := none, avatar_url := none }) :=
  (userProfile_deterministic _ "https://api.soundcloud.com/me.json" "accessToken").2.2
    { id := none, username := none, full_name := none, avatar_url := none } "r" rfl

/-- C10: on any transport body that parses as valid JSON the class-based and
the legacy implementations of `userProfile` agree, and their success-path
profile normalizations are the same function of the parsed document and the
raw body text. -/
theorem implementations_agree_on_profiles (j : ProviderJson)
    (raw profileURL accessToken : String) :
    classUserProfile (fun _ _ => Except.ok (Body.json j raw)) profileURL accessToken
      = legacyUserProfile (fun _ _ => Except.ok (Body.json j raw)) profileURL accessToken
    ∧ classMkProfile raw j = legacyMkProfile raw j :=
  ⟨rfl, rfl⟩

/-- Class extraction is the first non-empty value among body and query under
the given field name. -/
theorem classExtract_eq_firstNonEmpty (field : String) (req : Request) :
    truthyStr (classExtract field req)
      = firstNonEmptyStr [sectionGet req.body field, sectionGet req.query field] := by
  by_cases hb : jsTruthy (sectionGet req.body field) <;>
    by_cases hq : jsTruthy (sectionGet req.query field) <;>
    simp [classExtract, jsOr, truthyStr, firstNonEmptyStr, hb, hq]

/-- Legacy extraction is the first non-empty value among body, query and
headers under the given field name. -/
theorem legacyExtract_eq_firstNonEmpty (field : String) (req : Request) :
    truthyStr (legacyExtract field req)
      = firstNonEmptyStr [sectionGet req.body field, sectionGet req.query field,
          sectionGet req.headers field] := by
  by_cases hb : jsTruthy (sectionGet req.body field) <;>
    by_cases hq : jsTruthy (sectionGet req.query field) <;>
    by_cases hh : jsTruthy (sectionGet req.headers field) <;>
    simp [legacyExtract, jsOr, truthyStr, firstNonEmptyStr, hb, hq, hh]

/-- C3 counterexample: the legacy implementation does not use configured
field names as lookup keys. On a request carrying a non-empty token under
the configured name `token_field`, the class implementation (configured with
that name) extracts it and reaches the verify callback, while the legacy
implementation looks up only the fixed key `access_token` and fails as if no
token were provided. -/
theorem configured_field_name_counterexample :
    classAuthenticate "token_field" "refresh_token" false
        (fun _ => (Except.ok 1 : Except Nat Nat))
        (fun _ => ({ error := none, user := some 2, info := 3 } : VerifyResult Nat Nat Nat))
        { body := some [("token_field", "T")], query := none, headers := none }
      = Outcome.success 2 3
    ∧ legacyAuthenticate false
        (fun _ => (Except.ok 1 : Except Nat Nat))
        (fun _ => ({ error := none, user := some 2, info := 3 } : VerifyResult Nat Nat Nat))
        { body := some [("token_field", "T")], query := none, headers := none }
      = Outcome.fail (FailReason.messageObj "You should provide access_token") :=
  ⟨rfl, rfl⟩

/-- C3 (amended): the class implementation extracts each token as the first
non-empty value in body-then-query precedence using the configured field
name as the lookup key; the legacy implementation consults body, query, then
headers using the fixed keys `access_token` and `refresh_token` (its
constructor ignores any configured field names), and its missing-token
failure is governed by the fixed key; in both, an absent refresh token is
not an error: with a truthy access token and a successful profile load the
verify callback is still reached. -/
theorem token_extraction_precedence (field : String) (req : Request) :
    truthyStr (classExtract field req)
      = firstNonEmptyStr [sectionGet req.body field, sectionGet req.query field]
    ∧ truthyStr (legacyExtract "access_token" req)
      = firstNonEmptyStr [sectionGet req.body "access_token",
          sectionGet req.query "access_token", sectionGet req.headers "access_token"]
    ∧ truthyStr (legacyExtract "refresh_token" req)
      = firstNonEmptyStr [sectionGet req.body "refresh_token",
          sectionGet req.query "refresh_token", sectionGet req.headers "refresh_token"]
    ∧ (∀ (E U I P : Type) (passReqToCallback : Bool)
        (loadUserProfile : String → Except E P)
        (verify : VerifyCall P → VerifyResult E U I),
        jsTruthy (legacyExtract "access_token" req) = false →
        legacyAuthenticate passReqToCallback loadUserProfile verify req
          = Outcome.fail (FailReason.messageObj "You should provide access_token"))
    ∧ (∀ (E U I P : Type) (refreshTokenField : String)
        (loadUserProfile : String → Except E P)
        (verify : VerifyCall P → VerifyResult E U I) (p : P),
        jsTruthy (classExtract field req) = true →
        classExtract refreshTokenField req = none →
        loadUserProfile ((classExtract field req).getD "") = Except.ok p →
        classAuthenticate field refreshTokenField false loadUserProfile verify req
          = verified (verify (VerifyCall.withoutReq (classExtract field req) none p))) := by
  refine ⟨classExtract_eq_firstNonEmpty field req,
    legacyExtract_eq_firstNonEmpty "access_token" req,
    legacyExtract_eq_firstNonEmpty "refresh_token" req, ?_, ?_⟩
  · intro E U I P passReqToCallback loadUserProfile verify ht
    simp [legacyAuthenticate, ht]
  · intro E U I P refreshTokenField loadUserProfile verify p ht hr hl
    simp [classAuthenticate, ht, hr, hl]

theorem token_extraction_precedence_witness :
    classAuthenticate "access_token" "refresh_token" false
        (fun _ => (Except.ok 9 : Except Nat Nat))
        (fun _ => ({ error := none, user := some 5, info := 6 } : VerifyResult Nat Nat Nat))
        { body := some [("access_token", "T")], query := none, headers := none }
      = Outcome.success 5 6
    ∧ legacyAuthenticate false
        (fun _ => (Except.ok 9 : Except Nat Nat))
        (fun _ => ({ error := none, user := some 5, info := 6 } : VerifyResult Nat Nat Nat))
        { body := none, query := none, headers := none }
      = Outcome.fail (FailReason.messageObj "You should provide access_token") :=
  ⟨(token_extraction_precedence "access_token"
      { body := some [("access_token", "T")], query := none, headers := none }).2.2.2.2
    Nat Nat Nat Nat "refresh_token" (fun _ => Except.ok 9)
    (fun _ => { error := none, user := some 5, info := 6 }) 9
    (by decide) (by decide) rfl,
   (token_extraction_precedence "access_token"
      { body := none, query := none, headers := none }).2.2.2.1
    Nat Nat Nat Nat false (fun _ => Except.ok 9)
    (fun _ => { error := none, user := some 5, info := 6 }) (by decide)⟩

/-- C6: a transport body that is not valid JSON reaches `done` as the raw
parse error itself, unwrapped and with no profile value, in both
implementations; and a caller of `authenticate` observes it folded into the
error outcome through the profile-loading step. -/
theorem malformed_body_parse_error (profileURL accessToken raw : String) :
    classUserProfile (fun _ _ => Except.ok (Body.malformed raw)) profileURL accessToken
      = DoneResult.failure (DoneError.parse (JsError.parseError raw))
    ∧ (classUserProfile (fun _ _ => Except.ok (Body.malformed raw))
        profileURL accessToken).profile? = none
    ∧ legacyUserProfile (fun _ _ => Except.ok (Body.malformed raw)) profileURL accessToken
      = DoneResult.failure (DoneError.parse (JsError.parseError raw))
    ∧ (∀ (U I : Type) (accessTokenField refreshTokenField : String)
        (verify : VerifyCall Profile → VerifyResult DoneError U I) (req : Request),
        jsTruthy (classExtract accessTokenField req) = true →
        classAuthenticate accessTokenField refreshTokenField false
            (loadViaClassUserProfile (fun _ _ => Except.ok (Body.malformed raw)) profileURL)
            verify req
          = Outcome.error (DoneError.parse (JsError.parseError raw))) := by
  refine ⟨rfl, rfl, rfl, ?_⟩
  intro U I accessTokenField refreshTokenField verify req ht
  simp [classAuthenticate, ht, loadViaClassUserProfile, classUserProfile]

theorem malformed_body_parse_error_witness :
    classAuthenticate "access_token" "refresh_token" false
        (loadViaClassUserProfile (fun _ _ => Except.ok (Body.malformed "not a JSON"))
          "https://api.soundcloud.com/me.json")
        (fun _ => ({ error := none, user := none, info := 0 } : VerifyResult DoneError Nat Nat))
        { body := some [("access_token", "T")], query := none, headers := none }
      = Outcome.error (DoneError.parse (JsError.parseError "not a JSON")) :=
  (malformed_body_parse_error "https://api.soundcloud.com/me.json" "accessToken"
      "not a JSON").2.2.2
    Nat Nat "access_token" "refresh_token"
    (fun _ => { error := none, user := none, info := 0 })
    { body := some [("access_token", "T")], query := none, headers := none }
    (by decide)

/-- C8: with a truthy access token and a successful profile load, the verify
callback receives the request as an additional first argument exactly when
`passReqToCallback` is set, and receives `(accessToken, refreshToken,
profile, completion)` otherwise, in both implementations. -/
theorem verify_callback_dispatch {E U I P : Type}
    (accessTokenField refreshTokenField : String)
    (loadUserProfile : String → Except E P)
    (verify : VerifyCall P → VerifyResult E U I) (req : Request) (p : P)
    (ht : jsTruthy (classExtract accessTokenField req) = true)
    (hl : loadUserProfile ((classExtract accessTokenField req).getD "") = Except.ok p) :
    classAuthenticate accessTokenField refreshTokenField true loadUserProfile verify req
      = verified (verify (VerifyCall.withReq req (classExtract accessTokenField req)
          (classExtract refreshTokenField req) p))
    ∧ classAuthenticate accessTokenField refreshTokenField false loadUserProfile verify req
      = verified (verify (VerifyCall.withoutReq (classExtract accessTokenField req)
          (classExtract refreshTokenField req) p))
    ∧ (jsTruthy (legacyExtract "access_token" req) = true →
        loadUserProfile ((legacyExtract "access_token" req).getD "") = Except.ok p →
        legacyAuthenticate true loadUserProfile verify req
          = verified (verify (VerifyCall.withReq req (legacyExtract "access_token" req)
              (legacyExtract "refresh_token" req) p))
        ∧ legacyAuthenticate false loadUserProfile verify req
          = verified (verify (VerifyCall.withoutReq (legacyExtract "access_token" req)
              (legacyExtract "refresh_token" req) p))) := by
  refine ⟨?_, ?_, ?_⟩
  · simp [classAuthenticate, ht, hl]
  · simp [classAuthenticate, ht, hl]
  · intro ht' hl'
    constructor
    · simp [legacyAuthenticate, ht', hl']
    · simp [legacyAuthenticate, ht', hl']

theorem verify_callback_dispatch_witness :
    classAuthenticate "access_token" "refresh_token" true
        (fun _ => (Except.ok 1 : Except Nat Nat))
        (fun c => match c with
          | VerifyCall.withReq _ _ _ _ =>
            ({ error := none, user := some 2, info := 3 } : VerifyResult Nat Nat Nat)
          | VerifyCall.withoutReq _ _ _ =>
            ({ error := none, user := some 8, info := 9 } : VerifyResult Nat Nat Nat))
        { body := some [("access_token", "T"), ("refresh_token", "R")],
          query := none, headers := none }
      = Outcome.success 2 3
    ∧ classAuthenticate "access_token" "refresh_token" false
        (fun _ => (Except.ok 1 : Except Nat Nat))
        (fun c => match c with
          | VerifyCall.withReq _ _ _ _ =>
            ({ error := none, user := some 2, info := 3 } : VerifyResult Nat Nat Nat)
          | VerifyCall.withoutReq _ _ _ =>
            ({ error := none, user := some 8, info := 9 } : VerifyResult Nat Nat Nat))
        { body := some [("access_token", "T"), ("refresh_token", "R")],
          query := none, headers := none }
      = Outcome.success 8 9 :=
  ⟨(verify_callback_dispatch "access_token" "refresh_token"
      (fun _ => (Except.ok 1 : Except Nat Nat)) _
      { body := some [("access_token", "T"), ("refresh_token", "R")],
        query := none, headers := none } 1 (by decide) rfl).1,
   (verify_callback_dispatch "access_token" "refresh_token"
      (fun _ => (Except.ok 1 : Except Nat Nat)) _
      { body := some [("access_token", "T"), ("refresh_token", "R")],
        query := none, headers := none } 1 (by decide) rfl).2.1⟩

/-- C5 counterexample: a one-word full name yields an absent (undefined)
familyName rather than a second name part, and consecutive spaces are not
treated as a single whitespace run: for `"A  B"` the second segment is the
empty string, not `"B"`. -/
theorem name_split_counterexample :
    (classMkProfile "" { id := none, username := none,
                         full_name := some "Madonna", avatar_url := none }).name.familyName
      = none
    ∧ (classMkProfile "" { id := none, username := none,
                           full_name := some "A  B", avatar_url := none }).name.familyName
      = some ""
    ∧ (classMkProfile "" { id := none, username := none,
                           full_name := some "A  B", avatar_url := none }).name.familyName
      ≠ some "B" := by
  decide

/-- C5 (amended): the full name is split on the single space character with a
limit of two segments: givenName is the run of characters before the first
space (the whole name when it contains no space), and familyName is the
segment between the first and the second space, absent (undefined) exactly
when the name contains no space; when the full-name field is absent or empty,
displayName is the empty string and both name parts are empty strings rather
than absent. -/
theorem name_split_behaviour (json : ProviderJson) (body : String) :
    (jsTruthy json.full_name = false →
      (classMkProfile body json).displayName = ""
      ∧ (classMkProfile body json).name.givenName = some ""
      ∧ (classMkProfile body json).name.familyName = some "")
    ∧ (∀ s : String, json.full_name = some s → s ≠ "" →
      (classMkProfile body json).displayName = s
      ∧ (classMkProfile body json).name.givenName
          = some ((s.toList.takeWhile (fun c => c != ' ')).asString)
      ∧ (classMkProfile body json).name.familyName
          = if ' ' ∈ s.toList then
              some ((((s.toList.dropWhile (fun c => c != ' ')).drop 1).takeWhile
                (fun c => c != ' ')).asString)
            else none) := by
  constructor
  · intro h
    cases hf : json.full_name with
    | none => simp [classMkProfile, jsStrOrEmpty, jsTruthy, hf]
    | some s =>
      rw [hf] at h
      have hs : s = "" := by simpa [jsTruthy] using h
      subst hs
      simp [classMkProfile, jsStrOrEmpty, jsTruthy, hf]
  · intro s hf hs
    have ht : jsTruthy (some s) = true := by simp [jsTruthy, hs]
    refine ⟨?_, ?_, ?_⟩
    · simp [classMkProfile, jsStrOrEmpty, hf]
    · simp [classMkProfile, jsStrOrEmpty, hf, ht, jsSplitSpaceLimit2_getElem?_zero]
    · simp [classMkProfile, jsStrOrEmpty, hf, ht, jsSplitSpaceLimit2_getElem?_one]

theorem name_split_behaviour_witness :
    (classMkProfile "raw" { id := none, username := none,
                            full_name := some "Johannes Wagener",
                            avatar_url := none }).displayName
      = "Johannes Wagener" :=
  ((name_split_behaviour { id := none, username := none,
                           full_name := some "Johannes Wagener",
                           avatar_url := none } "raw").2
    "Johannes Wagener" rfl (by decide)).1

/-- C7 counterexample: on a transport error whose attached data parses to a
provider error document carrying a message and status code, the legacy
`userProfile` still hands `done` the uniform wrap with the fixed message,
while the class implementation extracts the provider message; so the claim,
read over both implementations, fails on the legacy one. -/
theorem transport_error_wrap_counterexample :
    legacyUserProfile
        (fun _ _ => Except.error
          { data := some (ErrData.json { errors := some [{ error_message := some "Invalid token" }] }),
            statusCode := some 401 })
        "https://api.soundcloud.com/me.json" "accessToken"
      = DoneResult.failure (DoneError.internalOAuthWrap "Failed to fetch user profile"
          { data := some (ErrData.json { errors := some [{ error_message := some "Invalid token" }] }),
            statusCode := some 401 })
    ∧ legacyUserProfile
        (fun _ _ => Except.error
          { data := some (ErrData.json { errors := some [{ error_message := some "Invalid token" }] }),
            statusCode := some 401 })
        "https://api.soundcloud.com/me.json" "accessToken"
      ≠ DoneResult.failure (DoneError.internalOAuthMsgStatus (some "Invalid token") (some 401))
    ∧ classUserProfile
        (fun _ _ => Except.error
          { data := some (ErrData.json { errors := some [{ error_message := some "Invalid token" }] }),
            statusCode := some 401 })
        "https://api.soundcloud.com/me.json" "accessToken"
      = DoneResult.failure (DoneError.internalOAuthMsgStatus (some "Invalid token") (some 401)) := by
  decide

/-- C7 (amended): the class implementation builds the `done` error by parsing
`error.data` and extracting the first entry's provider message together with
the status code; when that parse-and-extract cannot produce a first entry
(data absent or malformed, or an absent or empty errors array) it falls back
to the uniform wrap with the fixed message and the original transport error;
the legacy implementation always hands `done` the uniform wrap. -/
theorem transport_error_policy (profileURL accessToken : String) (e : TransportError) :
    (∀ j entry rest, e.data = some (ErrData.json j) → j.errors = some (entry :: rest) →
      classUserProfile (fun _ _ => Except.error e) profileURL accessToken
        = DoneResult.failure
            (DoneError.internalOAuthMsgStatus entry.error_message e.statusCode))
    ∧ ((∀ j entry rest, e.data = some (ErrData.json j) → j.errors ≠ some (entry :: rest)) →
      classUserProfile (fun _ _ => Except.error e) profileURL accessToken
        = DoneResult.failure
            (DoneError.internalOAuthWrap "Failed to fetch user profile" e))
    ∧ legacyUserProfile (fun _ _ => Except.error e) profileURL accessToken
      = DoneResult.failure
          (DoneError.internalOAuthWrap "Failed to fetch user profile" e) := by
  refine ⟨?_, ?_, rfl⟩
  · intro j entry rest hd he
    simp [classUserProfile, classOAuthErrorToDone, hd, he]
  · intro h
    cases hd : e.data with
    | none => simp [classUserProfile, classOAuthErrorToDone, hd]
    | some d =>
      cases d with
      | malformed r => simp [classUserProfile, classOAuthErrorToDone, hd]
      | json j =>
        cases he : j.errors with
        | none => simp [classUserProfile, classOAuthErrorToDone, hd, he]
        | some entries =>
          cases entries with
          | nil => simp [classUserProfile, classOAuthErrorToDone, hd, he]
          | cons entry rest => exact absurd he (h j entry rest hd)

theorem transport_error_policy_witness :
    classUserProfile
        (fun _ _ => Except.error
          { data := some (ErrData.json { errors := some [{ error_message := some "Invalid token" }] }),
            statusCode := some 401 })
        "https://api.soundcloud.com/me.json" "accessToken"
      = DoneResult.failure (DoneError.internalOAuthMsgStatus (some "Invalid token") (some 401))
    ∧ classUserProfile
        (fun _ _ => Except.error ({ data := none, statusCode := none } : TransportError))
        "https://api.soundcloud.com/me.json" "accessToken"
      = DoneResult.failure (DoneError.internalOAuthWrap "Failed to fetch user profile"
          { data := none, statusCode := none }) :=
  ⟨(transport_error_policy "https://api.soundcloud.com/me.json" "accessToken"
      { data := some (ErrData.json { errors := some [{ error_message := some "Invalid token" }] }),
        statusCode := some 401 }).1
      { errors := some [{ error_message := some "Invalid token" }] }
      { error_message := some "Invalid token" } [] rfl rfl,
   (transport_error_policy "https://api.soundcloud.com/me.json" "accessToken"
      { data := none, statusCode := none }).2.1
      (fun _ _ _ hd => Option.noConfusion hd)⟩

end SoundCloudToken
